import Mathlib

/-!
Shallow embedding of `src/Ames.py`, a dashboard that loads the TIGER county
shapefile, loads a Utah county population CSV, joins the two frames on the
GEOID column, and renders two choropleth maps and a bar chart.

DataFrames are embedded as lists of records; the Python string operations
`str(int)` and `str.zfill` are embedded as `pyStr` and `zfill`; the HTTP and
zip layers of `load_tiger_counties` are abstract parameters, with the control
flow of the function translated faithfully.
-/

namespace AmesVis

/-- One decimal digit rendered as a character, as Python renders it. -/
def digitChar (d : Nat) : Char := Char.ofNat (48 + d)

/-- Fuel-driven decimal rendering of a natural number, most significant digit
first; with fuel above `n` it computes the usual decimal numeral. -/
def natDigitsF : Nat → Nat → List Char
  | 0, _ => []
  | fuel + 1, n =>
      if n < 10 then [digitChar n]
      else natDigitsF fuel (n / 10) ++ [digitChar (n % 10)]

/-- The decimal numeral of a natural number, most significant digit first. -/
def natDigits (n : Nat) : List Char := natDigitsF (n + 1) n

/-- Python `str` applied to an integer. -/
def pyStr (n : Int) : String :=
  if n < 0 then String.mk ('-' :: natDigits (-n).toNat)
  else String.mk (natDigits n.toNat)

/-- Python `str.zfill`: left-pad with `'0'` up to the requested width, keeping
a leading sign in front of the padding. -/
def zfill (w : Nat) (s : String) : String :=
  if w ≤ s.length then s
  else
    match s.data with
    | c :: rest =>
        if c = '-' ∨ c = '+' then
          String.mk (c :: (List.replicate (w - s.length) '0' ++ rest))
        else String.mk (List.replicate (w - s.length) '0' ++ (c :: rest))
    | [] => String.mk (List.replicate (w - s.length) '0')

/-- One row of `DataPop.csv`, with the columns `read_utah_population` uses. -/
structure CsvRow where
  SUMLEV : Int
  STATE : Int
  COUNTY : Int
  CTYNAME : String
  POPESTIMATE2020 : Int
  POPESTIMATE2024 : Int
deriving Repr, DecidableEq

/-- One row of the population loader's output frame: the selected and renamed
columns NAME, GEOID, STATEFP, POP2020, POP2024, Pop_Change. -/
structure PopRow where
  NAME : String
  GEOID : String
  STATEFP : String
  POP2020 : Int
  POP2024 : Int
  Pop_Change : Int
deriving Repr, DecidableEq

/-- The per-row derivation in `read_utah_population`: the FIPS code columns,
the county name, the renamed estimate columns and the population change. -/
def popTransform (r : CsvRow) : PopRow :=
  { NAME := r.CTYNAME
    GEOID := zfill 2 (pyStr r.STATE) ++ zfill 3 (pyStr r.COUNTY)
    STATEFP := zfill 2 (pyStr r.STATE)
    POP2020 := r.POPESTIMATE2020
    POP2024 := r.POPESTIMATE2024
    Pop_Change := r.POPESTIMATE2024 - r.POPESTIMATE2020 }

/-- `read_utah_population`: keep the SUMLEV = 50 rows, derive the columns,
then keep the STATEFP = "49" rows. -/
def read_utah_population (df : List CsvRow) : List PopRow :=
  ((df.filter (fun r => r.SUMLEV == 50)).map popTransform).filter
    (fun r => r.STATEFP == "49")

/-- One record of the TIGER county shapefile, with the attributes the program
touches; `G` is the geometry type, opaque to the data wrangling. -/
structure BoundaryRow (G : Type) where
  GEOID : String
  STATEFP : String
  NAME : String
  geometry : G
deriving Repr, DecidableEq

/-- The errors the boundary loader can surface. -/
inductive LoadError where
  | retrievalError
  | extractionError
deriving Repr, DecidableEq

/-- Outcome of `requests.get`: the call either raises (network failure) or
returns a response carrying a status code and a body, whatever the status. -/
inductive FetchResult where
  | networkFailure
  | completed (status : Nat) (body : List Nat)
deriving Repr, DecidableEq

/-- The per-record normalization in `load_tiger_counties`: zero-fill the GEOID
to five characters and reproject the geometry (`to_crs(epsg=4326)`). -/
def normalizeBoundary {G : Type} (reproject : G → G) (r : BoundaryRow G) :
    BoundaryRow G :=
  { r with GEOID := zfill 5 r.GEOID, geometry := reproject r.geometry }

/-- `load_tiger_counties`, over an abstract transport and zip/shapefile layer:
`requests.get` either raises or yields a response; the body is handed straight
to `zipfile.ZipFile` — the code performs no status check — which raises on a
body that is not a valid archive; the parsed records are then normalized. -/
def load_tiger_counties {G : Type} (fetch : FetchResult)
    (isValidZip : List Nat → Bool)
    (readShapefile : List Nat → List (BoundaryRow G))
    (reproject : G → G) : Except LoadError (List (BoundaryRow G)) :=
  match fetch with
  | .networkFailure => .error .retrievalError
  | .completed _ body =>
      if isValidZip body then
        .ok ((readShapefile body).map (normalizeBoundary reproject))
      else .error .extractionError

/-- One row of `utah_gdf.merge(pop_df, on='GEOID', how='left')`: the boundary
columns (the NAME and STATEFP columns shared with the population frame get the
pandas `_x` suffix) and the population columns, which are null (`none`) when
no population row matched. -/
structure JoinedRow (G : Type) where
  GEOID : String
  NAME_x : String
  STATEFP_x : String
  geometry : G
  NAME_y : Option String
  STATEFP_y : Option String
  POP2020 : Option Int
  POP2024 : Option Int
  Pop_Change : Option Int
deriving Repr, DecidableEq

/-- Build one merged row from a boundary row and an optional population match. -/
def joinRow {G : Type} (l : BoundaryRow G) (m : Option PopRow) : JoinedRow G :=
  { GEOID := l.GEOID
    NAME_x := l.NAME
    STATEFP_x := l.STATEFP
    geometry := l.geometry
    NAME_y := m.map PopRow.NAME
    STATEFP_y := m.map PopRow.STATEFP
    POP2020 := m.map PopRow.POP2020
    POP2024 := m.map PopRow.POP2024
    Pop_Change := m.map PopRow.Pop_Change }

/-- The rows a single left row contributes to a pandas left merge on GEOID:
one row per matching right row, or a single row with null right columns when
there is no match. -/
def mergeRow {G : Type} (rights : List PopRow) (l : BoundaryRow G) :
    List (JoinedRow G) :=
  match rights.filter (fun r => r.GEOID == l.GEOID) with
  | [] => [joinRow l none]
  | ms => ms.map fun r => joinRow l (some r)

/-- pandas `left.merge(right, on='GEOID', how='left')`: each left row pairs
with every right row of equal GEOID, or stands alone with null right columns
when there is no match. -/
def leftMerge {G : Type} (lefts : List (BoundaryRow G)) (rights : List PopRow) :
    List (JoinedRow G) :=
  lefts.flatMap (mergeRow rights)

/-- The Utah slice of the boundary frame: `TIGER[TIGER['STATEFP'] == "49"]`. -/
def utahFilter {G : Type} (TIGER : List (BoundaryRow G)) : List (BoundaryRow G) :=
  TIGER.filter (fun r => r.STATEFP == "49")

/-- `utah_gdf`: the boundary frame filtered to Utah, left-merged with the
population frame on GEOID. -/
def utah_gdf {G : Type} (TIGER : List (BoundaryRow G)) (pop_df : List PopRow) :
    List (JoinedRow G) :=
  leftMerge (utahFilter TIGER) pop_df

/-- `plot_df = pop_df.sort_values('POP2024', ascending=False)`: the population
rows sorted by POP2024, descending. -/
def plot_df (pop_df : List PopRow) : List PopRow :=
  pop_df.mergeSort (fun a b => decide (b.POP2024 ≤ a.POP2024))

/-! ### Decimal rendering lemmas -/

theorem natDigitsF_congr (n : Nat) :
    ∀ f g, n < f → n < g → natDigitsF f n = natDigitsF g n := by
  induction n using Nat.strong_induction_on with
  | _ n ih =>
    intro f g hf hg
    cases f with
    | zero => omega
    | succ f =>
      cases g with
      | zero => omega
      | succ g =>
        by_cases h : n < 10
        · simp [natDigitsF, h]
        · have hlt : n / 10 < n := Nat.div_lt_self (by omega) (by omega)
          simp only [natDigitsF, if_neg h]
          rw [ih (n / 10) hlt f g (by omega) (by omega)]

theorem natDigits_lt10 {n : Nat} (h : n < 10) : natDigits n = [digitChar n] := by
  simp [natDigits, natDigitsF, h]

theorem natDigits_ge10 {n : Nat} (h : 10 ≤ n) :
    natDigits n = natDigits (n / 10) ++ [digitChar (n % 10)] := by
  have hlt : n / 10 < n := Nat.div_lt_self (by omega) (by omega)
  conv_lhs => rw [natDigits, natDigitsF, if_neg (by omega : ¬ n < 10)]
  rw [natDigitsF_congr (n / 10) n (n / 10 + 1) (by omega) (by omega)]
  rfl

theorem digitChar_isDigit {d : Nat} (h : d < 10) : (digitChar d).isDigit := by
  interval_cases d <;> decide

theorem natDigits_all_isDigit (n : Nat) : ∀ c ∈ natDigits n, c.isDigit := by
  induction n using Nat.strong_induction_on with
  | _ n ih =>
    by_cases h : n < 10
    · rw [natDigits_lt10 h]
      intro c hc
      rw [List.mem_singleton] at hc
      subst hc
      exact digitChar_isDigit h
    · rw [natDigits_ge10 (by omega)]
      intro c hc
      rw [List.mem_append] at hc
      cases hc with
      | inl hc =>
        exact ih (n / 10) (Nat.div_lt_self (by omega) (by omega)) c hc
      | inr hc =>
        rw [List.mem_singleton] at hc
        subst hc
        exact digitChar_isDigit (Nat.mod_lt n (by omega))

theorem natDigits_ne_nil (n : Nat) : natDigits n ≠ [] := by
  by_cases h : n < 10
  · rw [natDigits_lt10 h]; simp
  · rw [natDigits_ge10 (by omega)]; simp

theorem natDigits_length_le : ∀ (k n : Nat), n < 10 ^ (k + 1) →
    (natDigits n).length ≤ k + 1
  | 0, n, h => by
    rw [natDigits_lt10 (by simpa using h)]
    simp
  | k + 1, n, h => by
    by_cases h10 : n < 10
    · rw [natDigits_lt10 h10]; simp
    · rw [natDigits_ge10 (by omega), List.length_append]
      have hdiv : n / 10 < 10 ^ (k + 1) := by
        rw [Nat.div_lt_iff_lt_mul (by norm_num)]
        calc n < 10 ^ (k + 2) := h
          _ = 10 ^ (k + 1) * 10 := by ring
      have hle := natDigits_length_le k (n / 10) hdiv
      simp only [List.length_singleton]
      omega

/-! ### zfill lemmas -/

theorem zfill_of_length_le {w : Nat} {s : String} (h : w ≤ s.length) :
    zfill w s = s := by
  unfold zfill
  simp [h]

theorem zfill_data_of_digits {w : Nat} {l : List Char}
    (hd : ∀ c ∈ l, c.isDigit) :
    (zfill w (String.mk l)).data =
      List.replicate (w - l.length) '0' ++ l := by
  unfold zfill
  by_cases hw : w ≤ (String.mk l).length
  · rw [if_pos hw]
    rw [String.length_mk] at hw
    rw [Nat.sub_eq_zero_of_le hw, List.replicate_zero, List.nil_append]
  · rw [if_neg hw]
    rw [String.length_mk] at hw
    cases l with
    | nil => simp
    | cons c cs =>
      have hc : c.isDigit := hd c (by simp)
      have h1 : ¬(c = '-' ∨ c = '+') := by
        rintro (rfl | rfl) <;> simp [Char.isDigit] at hc
      simp only [String.length_mk]
      rw [if_neg h1]

theorem zfill_length_of_digits {w : Nat} {l : List Char}
    (hd : ∀ c ∈ l, c.isDigit) (hl : l.length ≤ w) :
    (zfill w (String.mk l)).length = w := by
  have h := zfill_data_of_digits (w := w) hd
  have : (zfill w (String.mk l)).length = (zfill w (String.mk l)).data.length := rfl
  rw [this, h, List.length_append, List.length_replicate]
  omega

theorem zfill_all_isDigit {w : Nat} {l : List Char}
    (hd : ∀ c ∈ l, c.isDigit) :
    ∀ c ∈ (zfill w (String.mk l)).data, c.isDigit := by
  rw [zfill_data_of_digits hd]
  intro c hc
  rw [List.mem_append] at hc
  cases hc with
  | inl hc =>
    rw [List.eq_of_mem_replicate hc]
    decide
  | inr hc => exact hd c hc

/-! ### Population loader lemmas -/

theorem mem_read_utah_population {df : List CsvRow} {r : PopRow}
    (h : r ∈ read_utah_population df) :
    ∃ src ∈ df, src.SUMLEV = 50 ∧ r = popTransform src ∧ r.STATEFP = "49" := by
  unfold read_utah_population at h
  rw [List.mem_filter] at h
  obtain ⟨hmem, hfp⟩ := h
  rw [List.mem_map] at hmem
  obtain ⟨src, hsrc, rfl⟩ := hmem
  rw [List.mem_filter] at hsrc
  obtain ⟨hdf, hsum⟩ := hsrc
  refine ⟨src, hdf, ?_, rfl, ?_⟩
  · simpa using hsum
  · simpa using hfp

theorem zfill3_county {n : Int} (h0 : 0 ≤ n) (h3 : n < 1000) :
    (zfill 3 (pyStr n)).length = 3 ∧ ∀ c ∈ (zfill 3 (pyStr n)).data, c.isDigit := by
  have hneg : ¬ n < 0 := by omega
  have hls : pyStr n = String.mk (natDigits n.toNat) := by rw [pyStr, if_neg hneg]
  have hd := natDigits_all_isDigit n.toNat
  have hlen : (natDigits n.toNat).length ≤ 3 := by
    have hlt : n.toNat < 10 ^ 3 := by norm_num; omega
    exact natDigits_length_le 2 n.toNat hlt
  rw [hls]
  exact ⟨zfill_length_of_digits hd hlen, zfill_all_isDigit hd⟩

theorem eq_four_of_digitChar {d : Nat} (hd : d < 10) (h : digitChar d = '4') :
    d = 4 := by
  interval_cases d <;> revert h <;> decide

theorem eq_nine_of_digitChar {d : Nat} (hd : d < 10) (h : digitChar d = '9') :
    d = 9 := by
  interval_cases d <;> revert h <;> decide

theorem eq_49_of_natDigits {m : Nat} (h : natDigits m = ['4', '9']) : m = 49 := by
  by_cases h10 : m < 10
  · rw [natDigits_lt10 h10] at h
    simp at h
  · rw [natDigits_ge10 (by omega)] at h
    by_cases h100 : m / 10 < 10
    · rw [natDigits_lt10 h100] at h
      simp only [List.cons_append, List.nil_append, List.cons.injEq, and_true] at h
      obtain ⟨h4, h9⟩ := h
      have hq := eq_four_of_digitChar h100 h4
      have hr := eq_nine_of_digitChar (Nat.mod_lt m (by omega)) h9
      omega
    · rw [natDigits_ge10 (by omega)] at h
      have hlen := congrArg List.length h
      simp only [List.length_append, List.length_singleton, List.length_cons,
        List.length_nil] at hlen
      have hnil : natDigits (m / 10 / 10) = [] :=
        List.eq_nil_of_length_eq_zero (by omega)
      exact absurd hnil (natDigits_ne_nil _)

theorem state_eq_49 {n : Int} (h : zfill 2 (pyStr n) = "49") : n = 49 := by
  by_cases hneg : n < 0
  · rw [pyStr, if_pos hneg] at h
    have hpos := List.length_pos.mpr (natDigits_ne_nil (-n).toNat)
    have hlen : 2 ≤ (String.mk ('-' :: natDigits (-n).toNat)).length := by
      rw [String.length_mk, List.length_cons]
      omega
    rw [zfill_of_length_le hlen] at h
    have hdata : '-' :: natDigits (-n).toNat = ['4', '9'] := congrArg String.data h
    simp at hdata
  · rw [pyStr, if_neg hneg] at h
    have hne := natDigits_ne_nil n.toNat
    have hpos := List.length_pos.mpr hne
    by_cases h2 : 2 ≤ (natDigits n.toNat).length
    · rw [zfill_of_length_le (by rw [String.length_mk]; exact h2)] at h
      have hdata : natDigits n.toNat = ['4', '9'] := congrArg String.data h
      have := eq_49_of_natDigits hdata
      omega
    · have hd := natDigits_all_isDigit n.toNat
      have hdata := zfill_data_of_digits (w := 2) hd
      rw [h] at hdata
      have h1 : (natDigits n.toNat).length = 1 := by omega
      rw [h1] at hdata
      obtain ⟨c, hc⟩ := List.length_eq_one.mp h1
      rw [hc] at hdata
      simp at hdata

/-! ### Concrete sample data -/

/-- A small concrete extract of `DataPop.csv`: three Utah county rows (one with
a population decline), a state aggregate row, and a county of another state. -/
def sampleCsv : List CsvRow :=
  [⟨50, 49, 11, "Davis County", 362679, 383120⟩,
   ⟨40, 49, 0, "Utah", 3271616, 3443222⟩,
   ⟨50, 49, 9, "Daggett County", 935, 910⟩,
   ⟨50, 4, 1, "Apache County", 66021, 64798⟩]

/-- The output row the loader derives from the Davis County sample row. -/
def davisRow : PopRow := ⟨"Davis County", "49011", "49", 362679, 383120, 20441⟩

/-- The output row the loader derives from the Daggett County sample row. -/
def daggettRow : PopRow := ⟨"Daggett County", "49009", "49", 935, 910, -25⟩

/-! ### Claims about the population loader -/

/-- C2: every row retained by the population loader has `Pop_Change` equal to
the 2024 population estimate minus the 2020 population estimate, as exact
signed integer arithmetic. -/
theorem pop_change_exact {df : List CsvRow} {r : PopRow}
    (h : r ∈ read_utah_population df) :
    r.Pop_Change = r.POP2024 - r.POP2020 := by
  obtain ⟨src, _, _, rfl, _⟩ := mem_read_utah_population h
  rfl

/-- Witness for C2, on a county whose population declined. -/
theorem pop_change_exact_witness :
    daggettRow ∈ read_utah_population sampleCsv ∧
      daggettRow.Pop_Change = daggettRow.POP2024 - daggettRow.POP2020 :=
  have h : daggettRow ∈ read_utah_population sampleCsv := by decide
  ⟨h, pop_change_exact h⟩

/-- C3: every population loader output row originates from an input row with
SUMLEV = 50, and an input with no SUMLEV-50 row yields an empty output. -/
theorem sumlev_filter (df : List CsvRow) :
    (∀ r ∈ read_utah_population df,
        ∃ src ∈ df, src.SUMLEV = 50 ∧ r = popTransform src) ∧
      ((∀ src ∈ df, src.SUMLEV ≠ 50) → read_utah_population df = []) := by
  constructor
  · intro r h
    obtain ⟨src, hdf, hsum, heq, _⟩ := mem_read_utah_population h
    exact ⟨src, hdf, hsum, heq⟩
  · intro hall
    unfold read_utah_population
    have hnil : df.filter (fun r => r.SUMLEV == 50) = [] := by
      rw [List.filter_eq_nil_iff]
      intro a ha
      simpa using hall a ha
    rw [hnil]
    rfl

/-- Witness for C3: the Davis County output row originates from a SUMLEV-50
row, and a lone state-aggregate row produces no output. -/
theorem sumlev_filter_witness :
    (∃ src ∈ sampleCsv, src.SUMLEV = 50 ∧ davisRow = popTransform src) ∧
      read_utah_population [⟨40, 49, 0, "Utah", 3271616, 3443222⟩] = [] :=
  ⟨(sumlev_filter sampleCsv).1 davisRow (by decide),
   (sumlev_filter [⟨40, 49, 0, "Utah", 3271616, 3443222⟩]).2 (by decide)⟩

/-- C4: each retained row's GEOID is the 2-zero-filled state code followed by
the 3-zero-filled county code, has exactly five characters, all of them
digits, and is left unchanged by the boundary loader's 5-wide zero-fill
normalization (the shared key contract). -/
theorem geoid_format {df : List CsvRow} {r : PopRow}
    (hc : ∀ src ∈ df, 0 ≤ src.COUNTY ∧ src.COUNTY < 1000)
    (h : r ∈ read_utah_population df) :
    (∃ src ∈ df,
        r.GEOID = zfill 2 (pyStr src.STATE) ++ zfill 3 (pyStr src.COUNTY)) ∧
      r.GEOID.length = 5 ∧ (∀ c ∈ r.GEOID.data, c.isDigit) ∧
      zfill 5 r.GEOID = r.GEOID := by
  obtain ⟨src, hdf, _, rfl, hfp⟩ := mem_read_utah_population h
  obtain ⟨hc0, hc1⟩ := hc src hdf
  obtain ⟨hcl, hcd⟩ := zfill3_county hc0 hc1
  have h49 : (popTransform src).STATEFP = "49" := hfp
  have hg : (popTransform src).GEOID = "49" ++ zfill 3 (pyStr src.COUNTY) := by
    rw [← h49]; rfl
  refine ⟨⟨src, hdf, rfl⟩, ?_, ?_, ?_⟩
  · rw [hg, String.length_append, hcl]
    decide
  · rw [hg, String.data_append]
    intro c hcm
    rw [List.mem_append] at hcm
    cases hcm with
    | inl hm =>
      have h49d : ("49" : String).data = ['4', '9'] := rfl
      rw [h49d] at hm
      simp only [List.mem_cons, List.mem_singleton, List.not_mem_nil,
        or_false] at hm
      rcases hm with rfl | rfl <;> decide
    | inr hm => exact hcd c hm
  · apply zfill_of_length_le
    rw [hg, String.length_append, hcl]
    decide

/-- Witness for C4 on the Davis County sample row. -/
theorem geoid_format_witness :
    (∃ src ∈ sampleCsv,
        davisRow.GEOID = zfill 2 (pyStr src.STATE) ++ zfill 3 (pyStr src.COUNTY)) ∧
      davisRow.GEOID.length = 5 ∧ (∀ c ∈ davisRow.GEOID.data, c.isDigit) ∧
      zfill 5 davisRow.GEOID = davisRow.GEOID :=
  geoid_format (by decide) (by decide)

/-- C5: every output row of the population loader has STATEFP "49", and each
output row originates from an input row whose state code is 49, so no county
row of a different state appears in the output. -/
theorem state_restriction {df : List CsvRow} {r : PopRow}
    (h : r ∈ read_utah_population df) :
    r.STATEFP = "49" ∧ ∃ src ∈ df, r = popTransform src ∧ src.STATE = 49 := by
  obtain ⟨src, hdf, _, heq, hfp⟩ := mem_read_utah_population h
  refine ⟨hfp, src, hdf, heq, ?_⟩
  have hz : zfill 2 (pyStr src.STATE) = "49" := by
    rw [heq] at hfp
    exact hfp
  exact state_eq_49 hz

/-- Witness for C5 on the Davis County sample row. -/
theorem state_restriction_witness :
    davisRow.STATEFP = "49" ∧
      ∃ src ∈ sampleCsv, davisRow = popTransform src ∧ src.STATE = 49 :=
  state_restriction (by decide)

/-- C9: in every population loader output row, the STATEFP field equals the
first two characters of the GEOID field. -/
theorem statefp_geoid_consistent {df : List CsvRow} {r : PopRow}
    (h : r ∈ read_utah_population df) :
    String.mk (r.GEOID.data.take 2) = r.STATEFP := by
  obtain ⟨src, _, _, rfl, hfp⟩ := mem_read_utah_population h
  have h49 : (popTransform src).STATEFP = "49" := hfp
  have hg : (popTransform src).GEOID = "49" ++ zfill 3 (pyStr src.COUNTY) := by
    rw [← h49]; rfl
  rw [hg, h49, String.data_append]
  rfl

/-- Witness for C9 on the Daggett County sample row. -/
theorem statefp_geoid_consistent_witness :
    String.mk (daggettRow.GEOID.data.take 2) = daggettRow.STATEFP :=
  @statefp_geoid_consistent sampleCsv daggettRow (by decide)

/-! ### Claims about the join -/

theorem filter_key_length_le_one {rights : List PopRow}
    (hu : rights.Pairwise (fun a b => a.GEOID ≠ b.GEOID)) (g : String) :
    (rights.filter (fun r => r.GEOID == g)).length ≤ 1 := by
  induction rights with
  | nil => simp
  | cons r rs ih =>
    rw [List.pairwise_cons] at hu
    obtain ⟨hr, hrs⟩ := hu
    by_cases h : r.GEOID = g
    · rw [List.filter_cons_of_pos (by simpa using h)]
      have hnil : rs.filter (fun r => r.GEOID == g) = [] := by
        rw [List.filter_eq_nil_iff]
        intro a ha
        simp only [beq_iff_eq]
        intro hag
        exact hr a ha (h.trans hag.symm)
      rw [hnil]
      simp
    · rw [List.filter_cons_of_neg (by simpa using h)]
      exact ih hrs

theorem mergeRow_length {G : Type} (rights : List PopRow) (l : BoundaryRow G)
    (hu : rights.Pairwise (fun a b => a.GEOID ≠ b.GEOID)) :
    (mergeRow rights l).length = 1 := by
  unfold mergeRow
  cases hfl : rights.filter (fun r => r.GEOID == l.GEOID) with
  | nil => rfl
  | cons m ms =>
    have hle := filter_key_length_le_one hu l.GEOID
    rw [hfl] at hle
    simp only [List.length_cons] at hle
    have hms : ms = [] := List.eq_nil_of_length_eq_zero (by omega)
    subst hms
    rfl

theorem leftMerge_length {G : Type} (lefts : List (BoundaryRow G))
    (rights : List PopRow)
    (hu : rights.Pairwise (fun a b => a.GEOID ≠ b.GEOID)) :
    (leftMerge lefts rights).length = lefts.length := by
  induction lefts with
  | nil => rfl
  | cons l ls ih =>
    unfold leftMerge at ih ⊢
    rw [List.flatMap_cons, List.length_append, ih, List.length_cons,
      mergeRow_length rights l hu]
    omega

/-- C1: with GEOIDs pairwise distinct on the population side, the left join on
GEOID produces exactly one row per state-filtered boundary row: the joined
view and the Utah-filtered boundary set have the same row count. -/
theorem join_lossless {G : Type} (TIGER : List (BoundaryRow G))
    (pop_df : List PopRow)
    (hu : pop_df.Pairwise (fun a b => a.GEOID ≠ b.GEOID)) :
    (utah_gdf TIGER pop_df).length = (utahFilter TIGER).length :=
  leftMerge_length (utahFilter TIGER) pop_df hu

/-- The boundary rows of the end-to-end scenario: three Utah counties and one
county of another state. -/
def sampleTiger : List (BoundaryRow Nat) :=
  [⟨"49001", "49", "Beaver", 10⟩,
   ⟨"49003", "49", "Box Elder", 11⟩,
   ⟨"49005", "49", "Cache", 12⟩,
   ⟨"04001", "04", "Apache", 13⟩]

/-- The population rows of the end-to-end scenario: matches for two of the
three Utah boundary rows. -/
def samplePop : List PopRow :=
  [⟨"Beaver County", "49001", "49", 10000, 10500, 500⟩,
   ⟨"Cache County", "49005", "49", 5000, 4800, -200⟩]

/-- Witness for C1 on the end-to-end scenario. -/
theorem join_lossless_witness :
    (utah_gdf sampleTiger samplePop).length = (utahFilter sampleTiger).length :=
  join_lossless sampleTiger samplePop (by decide)

/-- C7: a Utah boundary row whose GEOID matches no population row still
appears in the joined view, with all three population fields null (`none`),
and every joined row carrying its GEOID has null population fields. -/
theorem unmatched_boundary {G : Type} {TIGER : List (BoundaryRow G)}
    {pop_df : List PopRow} {b : BoundaryRow G}
    (hb : b ∈ utahFilter TIGER)
    (hnm : ∀ p ∈ pop_df, p.GEOID ≠ b.GEOID) :
    (∃ j ∈ utah_gdf TIGER pop_df,
        j.GEOID = b.GEOID ∧ j.geometry = b.geometry ∧
        j.POP2020 = none ∧ j.POP2024 = none ∧ j.Pop_Change = none) ∧
      ∀ j ∈ utah_gdf TIGER pop_df, j.GEOID = b.GEOID →
        j.POP2020 = none ∧ j.POP2024 = none ∧ j.Pop_Change = none := by
  have hfl : pop_df.filter (fun r => r.GEOID == b.GEOID) = [] := by
    rw [List.filter_eq_nil_iff]
    intro p hp
    simpa using hnm p hp
  constructor
  · refine ⟨joinRow b none, ?_, rfl, rfl, rfl, rfl, rfl⟩
    unfold utah_gdf leftMerge
    rw [List.mem_flatMap]
    refine ⟨b, hb, ?_⟩
    have hmr : mergeRow pop_df b = [joinRow b none] := by
      unfold mergeRow
      rw [hfl]
    rw [hmr]
    simp
  · intro j hj hgeo
    unfold utah_gdf leftMerge at hj
    rw [List.mem_flatMap] at hj
    obtain ⟨l, _, hjl⟩ := hj
    cases hfl2 : pop_df.filter (fun r => r.GEOID == l.GEOID) with
    | nil =>
      have hmr : mergeRow pop_df l = [joinRow l none] := by
        unfold mergeRow
        rw [hfl2]
      rw [hmr] at hjl
      simp only [List.mem_singleton] at hjl
      subst hjl
      exact ⟨rfl, rfl, rfl⟩
    | cons m ms =>
      have hmr : mergeRow pop_df l = (m :: ms).map fun r => joinRow l (some r) := by
        unfold mergeRow
        rw [hfl2]
      rw [hmr] at hjl
      rw [List.mem_map] at hjl
      obtain ⟨p, hp, hjp⟩ := hjl
      have hpf : p ∈ pop_df.filter (fun r => r.GEOID == l.GEOID) := by
        rw [hfl2]
        exact hp
      rw [List.mem_filter] at hpf
      obtain ⟨hppop, hpkey⟩ := hpf
      rw [beq_iff_eq] at hpkey
      subst hjp
      have hjg : (joinRow l (some p)).GEOID = l.GEOID := rfl
      rw [hjg] at hgeo
      exact absurd (hpkey.trans hgeo) (hnm p hppop)

/-- Witness for C7: the "49003" county has no population match in the
scenario yet appears in the joined view with null population fields. -/
theorem unmatched_boundary_witness :
    (∃ j ∈ utah_gdf sampleTiger samplePop,
        j.GEOID = "49003" ∧ j.geometry = 11 ∧
        j.POP2020 = none ∧ j.POP2024 = none ∧ j.Pop_Change = none) ∧
      ∀ j ∈ utah_gdf sampleTiger samplePop, j.GEOID = "49003" →
        j.POP2020 = none ∧ j.POP2024 = none ∧ j.Pop_Change = none :=
  @unmatched_boundary Nat sampleTiger samplePop
    ⟨"49003", "49", "Box Elder", 11⟩ (by decide) (by decide)

/-- C10: the left join only adds population columns: every joined row's GEOID,
geometry and remaining boundary columns coincide with those of a
state-filtered boundary row. -/
theorem join_frame {G : Type} {TIGER : List (BoundaryRow G)}
    {pop_df : List PopRow} {j : JoinedRow G}
    (hj : j ∈ utah_gdf TIGER pop_df) :
    ∃ b ∈ utahFilter TIGER,
      j.GEOID = b.GEOID ∧ j.geometry = b.geometry ∧
      j.NAME_x = b.NAME ∧ j.STATEFP_x = b.STATEFP := by
  unfold utah_gdf leftMerge at hj
  rw [List.mem_flatMap] at hj
  obtain ⟨l, hl, hjl⟩ := hj
  refine ⟨l, hl, ?_⟩
  cases hfl : pop_df.filter (fun r => r.GEOID == l.GEOID) with
  | nil =>
    have hmr : mergeRow pop_df l = [joinRow l none] := by
      unfold mergeRow
      rw [hfl]
    rw [hmr] at hjl
    simp only [List.mem_singleton] at hjl
    subst hjl
    exact ⟨rfl, rfl, rfl, rfl⟩
  | cons m ms =>
    have hmr : mergeRow pop_df l = (m :: ms).map fun r => joinRow l (some r) := by
      unfold mergeRow
      rw [hfl]
    rw [hmr] at hjl
    rw [List.mem_map] at hjl
    obtain ⟨p, _, hjp⟩ := hjl
    subst hjp
    exact ⟨rfl, rfl, rfl, rfl⟩

/-- Witness for C10 on the joined row of the "49001" county. -/
theorem join_frame_witness :
    ∃ b ∈ utahFilter sampleTiger,
      (joinRow (⟨"49001", "49", "Beaver", 10⟩ : BoundaryRow Nat)
          (some ⟨"Beaver County", "49001", "49", 10000, 10500, 500⟩)).GEOID
          = b.GEOID ∧
        (joinRow (⟨"49001", "49", "Beaver", 10⟩ : BoundaryRow Nat)
          (some ⟨"Beaver County", "49001", "49", 10000, 10500, 500⟩)).geometry
          = b.geometry ∧
        (joinRow (⟨"49001", "49", "Beaver", 10⟩ : BoundaryRow Nat)
          (some ⟨"Beaver County", "49001", "49", 10000, 10500, 500⟩)).NAME_x
          = b.NAME ∧
        (joinRow (⟨"49001", "49", "Beaver", 10⟩ : BoundaryRow Nat)
          (some ⟨"Beaver County", "49001", "49", 10000, 10500, 500⟩)).STATEFP_x
          = b.STATEFP :=
  @join_frame Nat sampleTiger samplePop
    (joinRow ⟨"49001", "49", "Beaver", 10⟩
      (some ⟨"Beaver County", "49001", "49", 10000, 10500, 500⟩))
    (by decide)

/-! ### Claim about the bar-chart data -/

/-- C8: the bar-chart data `plot_df` is the population loader's output sorted
in descending order of POP2024: a permutation of it in which every pair of
consecutive rows is non-increasing in POP2024. -/
theorem plot_df_sorted (pop_df : List PopRow) :
    (plot_df pop_df).Perm pop_df ∧
      (plot_df pop_df).Chain' (fun a b => b.POP2024 ≤ a.POP2024) := by
  constructor
  · exact List.mergeSort_perm pop_df _
  · have hp : (plot_df pop_df).Pairwise
        (fun a b => decide (b.POP2024 ≤ a.POP2024) = true) := by
      unfold plot_df
      apply List.sorted_mergeSort
      · intro a b c h1 h2
        simp only [decide_eq_true_eq] at h1 h2 ⊢
        omega
      · intro a b
        simp only [Bool.or_eq_true, decide_eq_true_eq]
        omega
    have hp2 : (plot_df pop_df).Pairwise (fun a b => b.POP2024 ≤ a.POP2024) :=
      hp.imp fun h => by simpa using h
    exact hp2.chain'

/-! ### Claim about the boundary loader's error behavior -/

/-- C6 as stated fails on the code: `load_tiger_counties` performs no HTTP
status check, so a completed response with non-success status 404 and an
archive body is not turned into a retrieval error — the loader extracts,
parses and normalizes the body instead. -/
theorem fetch_status_counterexample :
    load_tiger_counties (G := Nat) (FetchResult.completed 404 [1, 2, 3])
        (fun _ => true) (fun _ => [⟨"1", "49", "Beaver", 10⟩]) id
      = Except.ok [⟨"00001", "49", "Beaver", 10⟩] ∧
    load_tiger_counties (G := Nat) (FetchResult.completed 404 [1, 2, 3])
        (fun _ => true) (fun _ => [⟨"1", "49", "Beaver", 10⟩]) id
      ≠ Except.error LoadError.retrievalError := by
  constructor
  · rfl
  · intro h
    exact Except.noConfusion h

/-- C6 amended: the loader yields a retrieval error exactly when the network
request itself fails; the HTTP status is never inspected — the outcome is the
same for any two statuses over the same body — and a completed response's body
is handed to the archive extractor, yielding an extraction error when the body
is not a valid archive. -/
theorem fetch_error_behavior {G : Type} (isValidZip : List Nat → Bool)
    (readShapefile : List Nat → List (BoundaryRow G)) (reproject : G → G) :
    (load_tiger_counties FetchResult.networkFailure isValidZip readShapefile
        reproject = Except.error LoadError.retrievalError) ∧
      (∀ s₁ s₂ body,
        load_tiger_counties (FetchResult.completed s₁ body) isValidZip
            readShapefile reproject
          = load_tiger_counties (FetchResult.completed s₂ body) isValidZip
            readShapefile reproject) ∧
      (∀ s body, isValidZip body = false →
        load_tiger_counties (FetchResult.completed s body) isValidZip
            readShapefile reproject = Except.error LoadError.extractionError) := by
  refine ⟨rfl, fun s₁ s₂ body => rfl, fun s body h => ?_⟩
  simp [load_tiger_counties, h]

/-- Witness for the amended C6 at a concrete transport layer. -/
theorem fetch_error_behavior_witness :
    (load_tiger_counties (G := Nat) FetchResult.networkFailure (fun _ => false)
        (fun _ => []) id = Except.error LoadError.retrievalError) ∧
      (load_tiger_counties (G := Nat) (FetchResult.completed 200 [7])
          (fun _ => false) (fun _ => []) id
        = load_tiger_counties (G := Nat) (FetchResult.completed 404 [7])
          (fun _ => false) (fun _ => []) id) ∧
      load_tiger_counties (G := Nat) (FetchResult.completed 404 [7])
          (fun _ => false) (fun _ => []) id
        = Except.error LoadError.extractionError :=
  ⟨(fetch_error_behavior (fun _ => false) (fun _ => []) id).1,
   (fetch_error_behavior (fun _ => false) (fun _ => []) id).2.1 200 404 [7],
   (fetch_error_behavior (fun _ => false) (fun _ => []) id).2.2 404 [7] rfl⟩

end AmesVis
